import Mathlib

/-!
Verification development for the DVFS edge service (`src/edge.py`).

The Python service controls CPU/GPU clock frequencies on a Jetson board.
We shallowly embed the control logic: hardware reads and writes are modelled
by explicit state records (`CPUHw`, `GPUHw`) whose fields hold the values the
corresponding sysfs reads would produce (`none` = read failure) and booleans
saying whether each hardware write would succeed.  Each operation returns its
result together with a trace of the hardware write events it issued, and
operations that can raise an uncaught Python exception return `Option`
(`none` = exception).  Caller-supplied frequencies are rationals, mirroring
Python numbers; `pyInt` is Python's `int()` truncation toward zero.
-/

namespace DVFS

/-- A hardware write issued by the CPU controller: either a governor write to
one core's `scaling_governor` or a frequency write to one core's
`scaling_setspeed`. -/
inductive Event where
  | govWrite (core : Nat) (gov : String)
  | freqWrite (core : Nat) (freq : Int)
deriving DecidableEq, Repr

/-- A hardware write issued by the GPU controller: a governor write, or a
frequency write to one of the three candidate frequency files
(0 = `userspace/freq`, 1 = `min_freq`, 2 = `max_freq`). -/
inductive GPUEvent where
  | govWrite (gov : String)
  | freqWrite (path : Nat) (freq : Int)
deriving DecidableEq, Repr

/-- CPU-side hardware state, as seen/affected by `CPUController`
(`src/edge.py` lines 72-190).  `cur_freq c`, `cur_governor c` and
`avail_freq_file c` are what reading core `c`'s `scaling_cur_freq`,
`scaling_governor` and `scaling_available_frequencies` would yield
(`none` = the read raises, which the Python code catches);
`avail_freq_file` holds the parsed whitespace-separated integer list,
in file order.  `gov_write_ok c` / `freq_write_ok c` say whether the
`sudo tee` write to core `c`'s governor / setspeed file succeeds. -/
structure CPUHw where
  available_cpus : List Nat
  cur_freq : Nat → Option Int
  cur_governor : Nat → Option String
  avail_freq_file : Nat → Option (List Int)
  gov_write_ok : Nat → Bool
  freq_write_ok : Nat → Bool

/-- GPU-side hardware state, as seen/affected by `GPUController`
(`src/edge.py` lines 193-341).  `gpu_path` is the result of `find_gpu_path`
(`none` = no candidate path exists).  `avail_file` is the parsed content of
`available_frequencies` when that file exists and is readable, else `none`
(the code then falls back to a hard-coded table).  `cur_freq_file` /
`cur_governor` model reading `cur_freq` / `governor` (`none` = missing or
unreadable).  The three `*_exists` / `*_ok` pairs say whether each candidate
frequency-write file (`userspace/freq`, `min_freq`, `max_freq`) exists and
whether writing it succeeds. -/
structure GPUHw where
  gpu_path : Option String
  avail_file : Option (List Int)
  cur_freq_file : Option Int
  cur_governor : Option String
  gov_write_ok : Bool
  us_freq_exists : Bool
  us_freq_ok : Bool
  min_freq_exists : Bool
  min_freq_ok : Bool
  max_freq_exists : Bool
  max_freq_ok : Bool

/-- Python's `int()` on a rational: truncation toward zero. -/
def pyInt (x : ℚ) : ℤ := if x < 0 then x.ceil else x.floor

/-- The proportional index `int(frequency * (len(available_freqs) - 1))`
computed in `set_frequency` (`src/edge.py` lines 154, 298), as a list index
(Python indexing with the resulting non-negative value). -/
def propIdx (f : ℚ) (n : ℕ) : ℕ := (pyInt (f * ((n : ℚ) - 1))).toNat

/-- `min(available_freqs, key=lambda x: abs(x - target_freq))`
(`src/edge.py` lines 163, 307): first element of the list attaining the
minimal absolute distance to `v`; `none` on the empty list (Python raises
`ValueError`). -/
def minByDist (v : ℤ) : List ℤ → Option ℤ
  | [] => none
  | x :: xs => some (xs.foldl (fun best y => if |y - v| < |best - v| then y else best) x)

/-- Frequency resolution in `CPUController.set_frequency`
(`src/edge.py` lines 151-164): a request strictly between 0 and 1 is a
proportional index into the table, anything else is an absolute value
truncated to an integer; a resolved value not in the table is snapped to the
nearest entry.  `none` models an uncaught `IndexError`/`ValueError`
(empty table). -/
def resolveTargetCPU (freqs : List ℤ) (f : ℚ) : Option ℤ :=
  match (if 0 < f ∧ f < 1 then freqs[propIdx f freqs.length]? else some (pyInt f)) with
  | none => none
  | some t => if t ∈ freqs then some t else minByDist t freqs

/-- Frequency resolution in `GPUController.set_frequency`
(`src/edge.py` lines 295-308).  Identical to the CPU version except that the
snap-to-nearest step is guarded by `and available_freqs`, so an empty table
leaves an absolute request unchanged instead of raising. -/
def resolveTargetGPU (freqs : List ℤ) (f : ℚ) : Option ℤ :=
  match (if 0 < f ∧ f < 1 then freqs[propIdx f freqs.length]? else some (pyInt f)) with
  | none => none
  | some t => if t ∉ freqs ∧ freqs ≠ [] then minByDist t freqs else some t

/-- The list of cores an operation acts on: `[cpu] if cpu is not None else
self.available_cpus` (`src/edge.py` lines 122, 143). -/
def cpuScope (hw : CPUHw) (cpu : Option Nat) : List Nat :=
  match cpu with
  | some c => [c]
  | none => hw.available_cpus

namespace CPUController

/-- `CPUController.get_available_frequencies` (`src/edge.py` lines 89-98):
returns the parsed file content, or `[]` when the read fails. -/
def get_available_frequencies (hw : CPUHw) (cpu : Nat) : List Int :=
  (hw.avail_freq_file cpu).getD []

/-- `CPUController.get_current_frequency` (`src/edge.py` lines 100-108). -/
def get_current_frequency (hw : CPUHw) (cpu : Nat) : Option Int :=
  hw.cur_freq cpu

/-- `CPUController.get_current_governor` (`src/edge.py` lines 110-118). -/
def get_current_governor (hw : CPUHw) (cpu : Nat) : Option String :=
  hw.cur_governor cpu

/-- The per-core loop of `CPUController.set_governor`
(`src/edge.py` lines 124-134): writes the governor to each core in turn and
returns `False` at the first failing core, skipping the rest;
returns the write events actually issued. -/
def set_governor_go (hw : CPUHw) (g : String) : List Nat → Bool × List Event
  | [] => (true, [])
  | c :: rest =>
    if hw.gov_write_ok c then
      let r := set_governor_go hw g rest
      (r.1, Event.govWrite c g :: r.2)
    else (false, [Event.govWrite c g])

/-- `CPUController.set_governor` (`src/edge.py` lines 120-134). -/
def set_governor (hw : CPUHw) (g : String) (cpu : Option Nat) : Bool × List Event :=
  set_governor_go hw g (cpuScope hw cpu)

/-- The per-core write loop of `CPUController.set_frequency`
(`src/edge.py` lines 167-178): every core is attempted, each failure is
caught, and the number of successful writes is counted. -/
def set_freq_go (hw : CPUHw) (t : Int) : List Nat → Nat × List Event
  | [] => (0, [])
  | c :: rest =>
    let r := set_freq_go hw t rest
    ((if hw.freq_write_ok c then r.1 + 1 else r.1), Event.freqWrite c t :: r.2)

/-- `CPUController.set_frequency` (`src/edge.py` lines 136-179): reads the
governor of the first core in scope and, if it is not `"userspace"`, calls
`set_governor('userspace', cpu)` (its result is not inspected); resolves the
requested frequency against core 0-of-scope's table; writes it to every core
in scope; returns `success_count > 0`.  `none` models an uncaught exception
(empty scope or empty frequency table). -/
def set_frequency (hw : CPUHw) (f : ℚ) (cpu : Option Nat) : Option (Bool × List Event) :=
  match cpuScope hw cpu with
  | [] => none
  | c0 :: _ =>
    let gevs : List Event :=
      if get_current_governor hw c0 ≠ some "userspace"
      then (set_governor hw "userspace" cpu).2
      else []
    match resolveTargetCPU (get_available_frequencies hw c0) f with
    | none => none
    | some t =>
      let r := set_freq_go hw t (cpuScope hw cpu)
      some (decide (0 < r.1), gevs ++ r.2)

end CPUController

/-- Per-core status snapshot built by `CPUController.get_status`
(`src/edge.py` lines 184-189). -/
structure CPUCoreStatus where
  current_freq : Option Int
  governor : Option String
  available_freqs : List Int
deriving DecidableEq, Repr

/-- `CPUController.get_status` (`src/edge.py` lines 181-190): one snapshot
per discovered core. -/
def CPUController.get_status (hw : CPUHw) : List (Nat × CPUCoreStatus) :=
  hw.available_cpus.map (fun c =>
    (c, ⟨CPUController.get_current_frequency hw c,
         CPUController.get_current_governor hw c,
         CPUController.get_available_frequencies hw c⟩))

/-- The hard-coded Jetson TX2 GPU frequency table used when the
`available_frequencies` file cannot be read (`src/edge.py` lines 230-233). -/
def gpuFallbackFreqs : List Int :=
  [76800000, 153600000, 230400000, 307200000, 384000000,
   460800000, 537600000, 614400000, 691200000, 768000000,
   844800000, 921600000, 998400000, 1075200000, 1152000000,
   1228800000, 1267200000, 1300500000]

namespace GPUController

/-- `GPUController.get_available_frequencies` (`src/edge.py` lines 215-233):
`[]` with no bound GPU path; `sorted(freqs)` when the file is readable;
otherwise the hard-coded fallback table. -/
def get_available_frequencies (hw : GPUHw) : List Int :=
  match hw.gpu_path with
  | none => []
  | some _ =>
    match hw.avail_file with
    | some l => l.insertionSort (· ≤ ·)
    | none => gpuFallbackFreqs

/-- `GPUController.get_current_frequency` (`src/edge.py` lines 235-247). -/
def get_current_frequency (hw : GPUHw) : Option Int :=
  match hw.gpu_path with
  | none => none
  | some _ => hw.cur_freq_file

/-- `GPUController.get_current_governor` (`src/edge.py` lines 249-261). -/
def get_current_governor (hw : GPUHw) : Option String :=
  match hw.gpu_path with
  | none => none
  | some _ => hw.cur_governor

/-- `GPUController.set_governor` (`src/edge.py` lines 263-277): fails without
any write when no GPU path is bound; otherwise a single governor write. -/
def set_governor (hw : GPUHw) (g : String) : Bool × List GPUEvent :=
  match hw.gpu_path with
  | none => (false, [])
  | some _ => (hw.gov_write_ok, [GPUEvent.govWrite g])

end GPUController

/-- The three candidate frequency-write locations tried by
`GPUController.set_frequency` (`src/edge.py` lines 312-316), in order, paired
with whether each exists and whether writing it succeeds. -/
def gpuWritePaths (hw : GPUHw) : List (Nat × Bool × Bool) :=
  [(0, hw.us_freq_exists, hw.us_freq_ok),
   (1, hw.min_freq_exists, hw.min_freq_ok),
   (2, hw.max_freq_exists, hw.max_freq_ok)]

/-- The write loop of `GPUController.set_frequency`
(`src/edge.py` lines 318-327): each existing candidate file is written (every
failure caught), and the call succeeds if any write succeeded. -/
def gpuWriteLoop (t : Int) : List (Nat × Bool × Bool) → Bool × List GPUEvent
  | [] => (false, [])
  | (i, ex, ok) :: rest =>
    let r := gpuWriteLoop t rest
    if ex then (ok || r.1, GPUEvent.freqWrite i t :: r.2) else r

/-- `GPUController.set_frequency` (`src/edge.py` lines 279-332): returns
`False` immediately when no GPU path is bound; otherwise reads the governor
and, if it is not `"userspace"`, calls `set_governor('userspace')` (result
not inspected); resolves the request and writes it to every existing
candidate file.  `none` models an uncaught `IndexError` (empty table hit by
a proportional request). -/
def GPUController.set_frequency (hw : GPUHw) (f : ℚ) : Option (Bool × List GPUEvent) :=
  match hw.gpu_path with
  | none => some (false, [])
  | some _ =>
    let gevs : List GPUEvent :=
      if GPUController.get_current_governor hw ≠ some "userspace"
      then (GPUController.set_governor hw "userspace").2
      else []
    match resolveTargetGPU (GPUController.get_available_frequencies hw) f with
    | none => none
    | some t =>
      let r := gpuWriteLoop t (gpuWritePaths hw)
      some (r.1, gevs ++ r.2)

/-- GPU status snapshot built by `GPUController.get_status`
(`src/edge.py` lines 334-341). -/
structure GPUStatus where
  current_freq : Option Int
  governor : Option String
  available_freqs : List Int
  path : Option String
deriving DecidableEq, Repr

/-- `GPUController.get_status` (`src/edge.py` lines 334-341): a total
function, built from the individual getters. -/
def GPUController.get_status (hw : GPUHw) : GPUStatus :=
  ⟨GPUController.get_current_frequency hw,
   GPUController.get_current_governor hw,
   GPUController.get_available_frequencies hw,
   hw.gpu_path⟩

/-- A decoded command as read by `handle_client` (`src/edge.py` lines
369-421): each field is `none` when the JSON object lacks the key. -/
structure Command where
  action : Option String
  target : Option String
  frequency : Option ℚ
  governor : Option String
  cpu : Option Nat
deriving DecidableEq, Repr

/-- The response object sent back by `handle_client`.  `timestamp` is `some`
exactly when the sent dict contains a `timestamp` key; the optional payload
fields mirror the optional dict keys of the same names. -/
structure Response where
  status : String
  timestamp : Option String
  message : Option String
  current_status : Option (List (Nat × CPUCoreStatus))
  status_info : Option (List (Nat × CPUCoreStatus))
  cpu_status : Option (List (Nat × CPUCoreStatus))
  gpu_status : Option GPUStatus
deriving DecidableEq, Repr

/-- Which controller a dispatched operation went to. -/
inductive Dom where
  | cpu
  | gpu
deriving DecidableEq, Repr

/-- A controller invocation performed while handling one command. -/
inductive Call where
  | setFreq (d : Dom)
  | setGov (d : Dom)
  | status (d : Dom)
deriving DecidableEq, Repr

/-- The domain of a controller invocation. -/
def Call.dom : Call → Dom
  | .setFreq d => d
  | .setGov d => d
  | .status d => d

/-- A wholesale replacement response `{'status': 'error', 'message': msg}`
(`src/edge.py` lines 363, 382, 399, 430, 434, 449): note it carries no
timestamp. -/
def errorResponse (msg : String) : Response :=
  { status := "error", timestamp := none, message := some msg,
    current_status := none, status_info := none, cpu_status := none,
    gpu_status := none }

/-- The initial response `{'status': 'success', 'timestamp': ...}` built at
dispatch time (`src/edge.py` line 371). -/
def baseResponse (ts : String) : Response :=
  { status := "success", timestamp := some ts, message := none,
    current_status := none, status_info := none, cpu_status := none,
    gpu_status := none }

/-- Stands for `str(e)` of an uncaught Python exception reaching the
`except` clause of `handle_client` (`src/edge.py` line 449); the exact text
is environment-specific and irrelevant here. -/
def exceptionText : String := "exception"

/-- The command-dispatch logic of `handle_client` (`src/edge.py` lines
369-449), from a successfully parsed command to the response sent, together
with the trace of controller invocations.  `ts` is the timestamp captured at
dispatch time.  Defaults mirror `cmd.get`: action `''`, target `'cpu'`,
governor `'userspace'`.  An exception escaping a controller call is caught
by the service's outer handler, which replies
`{'status': 'error', 'message': str(e)}`. -/
def dispatch (cpuHw : CPUHw) (gpuHw : GPUHw) (cmd : Command) (ts : String) :
    Response × List Call :=
  let action := cmd.action.getD ""
  let target := cmd.target.getD "cpu"
  let r0 := baseResponse ts
  if action = "set_frequency" then
    match cmd.frequency with
    | none => (errorResponse "缺少frequency参数", [])
    | some f =>
      if target = "cpu" then
        match CPUController.set_frequency cpuHw f cmd.cpu with
        | some (true, _) =>
          ({ r0 with
             message := some (target.toUpper ++ "频率设置成功: " ++ toString f),
             current_status := some (CPUController.get_status cpuHw) },
           [Call.setFreq Dom.cpu, Call.status Dom.cpu])
        | some (false, _) =>
          (errorResponse (target.toUpper ++ "频率设置失败"), [Call.setFreq Dom.cpu])
        | none => (errorResponse exceptionText, [Call.setFreq Dom.cpu])
      else
        match GPUController.set_frequency gpuHw f with
        | some (true, _) =>
          ({ r0 with
             message := some (target.toUpper ++ "频率设置成功: " ++ toString f),
             gpu_status := some (GPUController.get_status gpuHw) },
           [Call.setFreq Dom.gpu, Call.status Dom.gpu])
        | some (false, _) =>
          (errorResponse (target.toUpper ++ "频率设置失败"), [Call.setFreq Dom.gpu])
        | none => (errorResponse exceptionText, [Call.setFreq Dom.gpu])
  else if action = "get_status" then
    if target = "all" then
      ({ r0 with
         cpu_status := some (CPUController.get_status cpuHw),
         gpu_status := some (GPUController.get_status gpuHw),
         message := some "CPU和GPU状态查询成功" },
       [Call.status Dom.cpu, Call.status Dom.gpu])
    else if target = "cpu" then
      ({ r0 with
         status_info := some (CPUController.get_status cpuHw),
         message := some "CPU状态查询成功" },
       [Call.status Dom.cpu])
    else
      ({ r0 with
         gpu_status := some (GPUController.get_status gpuHw),
         message := some "GPU状态查询成功" },
       [Call.status Dom.gpu])
  else if action = "set_governor" then
    let g := cmd.governor.getD "userspace"
    if target = "cpu" then
      if (CPUController.set_governor cpuHw g cmd.cpu).1 then
        ({ r0 with message := some (target.toUpper ++ "调频策略设置成功: " ++ g) },
         [Call.setGov Dom.cpu])
      else
        (errorResponse (target.toUpper ++ "调频策略设置失败"), [Call.setGov Dom.cpu])
    else
      if (GPUController.set_governor gpuHw g).1 then
        ({ r0 with message := some (target.toUpper ++ "调频策略设置成功: " ++ g) },
         [Call.setGov Dom.gpu])
      else
        (errorResponse (target.toUpper ++ "调频策略设置失败"), [Call.setGov Dom.gpu])
  else
    (errorResponse ("未知的操作: " ++ action), [])

/-! ## Concrete hardware states used by witnesses and counterexamples -/

/-- CPU state for the C4 witness: two cores, already in userspace mode,
core 0's frequency write fails while core 1's succeeds. -/
def cpuHwB : CPUHw :=
  ⟨[0, 1], fun _ => none, fun _ => some "userspace", fun _ => some [100, 200],
   fun _ => true, fun c => decide (c = 1)⟩

/-- CPU state for C1: two cores under the `ondemand` governor, every governor
write fails, every frequency write succeeds. -/
def cpuHwA : CPUHw :=
  ⟨[0, 1], fun _ => none, fun _ => some "ondemand", fun _ => some [100, 200],
   fun _ => false, fun _ => true⟩

/-- CPU state whose `scaling_available_frequencies` file holds the unsorted
content `200 100`. -/
def cpuHwC5 : CPUHw :=
  ⟨[0], fun _ => none, fun _ => some "userspace", fun _ => some [200, 100],
   fun _ => true, fun _ => true⟩

/-- GPU state whose `available_frequencies` file holds the duplicated
content `100 100`. -/
def gpuHwDup : GPUHw :=
  ⟨some "/sys/devices/gpu.0/devfreq/17000000.gp10b", some [100, 100], none, none,
   true, true, true, false, false, false, false⟩

/-- GPU state with no discoverable control path. -/
def gpuHwNone : GPUHw :=
  ⟨none, none, none, none, false, false, false, false, false, false, false⟩

/-! ## Helper lemmas -/

/-- `Rat.floor` agrees with the `FloorRing` floor on `ℚ`. -/
lemma rat_floor_eq (q : ℚ) : q.floor = ⌊q⌋ := by
  rw [Rat.floor_def', ← Rat.floor_def]

lemma pyInt_of_nonneg {x : ℚ} (h : 0 ≤ x) : pyInt x = ⌊x⌋ := by
  rw [pyInt, if_neg (not_lt.mpr h), rat_floor_eq]

lemma pyInt_intCast (v : ℤ) : pyInt (v : ℚ) = v := by
  unfold pyInt
  split <;> simp [Rat.ceil, Rat.floor, Rat.num_intCast, Rat.den_intCast]

lemma propIdx_eq_floor {f : ℚ} {n : ℕ} (h0 : 0 ≤ f) (hn : 1 ≤ n) :
    propIdx f n = (⌊f * ((n : ℚ) - 1)⌋).toNat := by
  have hn' : (1 : ℚ) ≤ (n : ℚ) := by exact_mod_cast hn
  have hq0 : 0 ≤ f * ((n : ℚ) - 1) := mul_nonneg h0 (by linarith)
  rw [propIdx, pyInt_of_nonneg hq0]

lemma propIdx_lt {f : ℚ} {n : ℕ} (h0 : 0 < f) (h1 : f < 1) (hn : 1 ≤ n) :
    propIdx f n < n := by
  have hn' : (1 : ℚ) ≤ (n : ℚ) := by exact_mod_cast hn
  have hq0 : 0 ≤ f * ((n : ℚ) - 1) := mul_nonneg h0.le (by linarith)
  have hq : f * ((n : ℚ) - 1) < (n : ℚ) := by nlinarith
  rw [propIdx, pyInt_of_nonneg hq0]
  have hfl : ⌊f * ((n : ℚ) - 1)⌋ < (n : ℤ) := by
    rw [Int.floor_lt]; push_cast; exact hq
  have hfl0 : 0 ≤ ⌊f * ((n : ℚ) - 1)⌋ := Int.floor_nonneg.mpr hq0
  omega

lemma propIdx_le_sub_two {f : ℚ} {n : ℕ} (h0 : 0 < f) (h1 : f < 1) (hn : 2 ≤ n) :
    propIdx f n ≤ n - 2 := by
  have hn' : (2 : ℚ) ≤ (n : ℚ) := by exact_mod_cast hn
  have hq0 : 0 ≤ f * ((n : ℚ) - 1) := mul_nonneg h0.le (by linarith)
  have hq : f * ((n : ℚ) - 1) < (n : ℚ) - 1 := by nlinarith
  rw [propIdx, pyInt_of_nonneg hq0]
  have hfl : ⌊f * ((n : ℚ) - 1)⌋ < (n : ℤ) - 1 := by
    rw [Int.floor_lt]; push_cast; exact hq
  have hfl0 : 0 ≤ ⌊f * ((n : ℚ) - 1)⌋ := Int.floor_nonneg.mpr hq0
  omega

/-- The scanning minimum kept by `minByDist` is the first element attaining
the minimal distance; on a strictly ascending list, the first equidistant
element is the smaller one. -/
lemma minByDist_spec (v : ℤ) :
    ∀ (x : ℤ) (xs : List ℤ), List.Pairwise (· < ·) (x :: xs) →
      ∃ r, minByDist v (x :: xs) = some r ∧ r ∈ x :: xs ∧
        (∀ e ∈ x :: xs, |r - v| ≤ |e - v|) ∧
        (∀ e ∈ x :: xs, |e - v| = |r - v| → r ≤ e) := by
  intro x xs
  induction xs generalizing x with
  | nil =>
    intro _
    refine ⟨x, rfl, List.mem_singleton_self x, ?_, ?_⟩ <;>
      simp
  | cons y ys ih =>
    intro hs
    rw [List.pairwise_cons] at hs
    obtain ⟨hx, hyys⟩ := hs
    by_cases hc : |y - v| < |x - v|
    · obtain ⟨r, hreq, hrmem, hrmin, hrtie⟩ := ih y hyys
      refine ⟨r, ?_, List.mem_cons_of_mem x hrmem, ?_, ?_⟩
      · simpa [minByDist, List.foldl_cons, if_pos hc] using hreq
      · intro e he
        rcases List.mem_cons.mp he with he | he
        · subst he
          have := hrmin y (List.mem_cons_self y ys)
          linarith
        · exact hrmin e he
      · intro e he heq
        rcases List.mem_cons.mp he with he | he
        · subst he
          have := hrmin y (List.mem_cons_self y ys)
          linarith
        · exact hrtie e he heq
    · have hxys : List.Pairwise (· < ·) (x :: ys) := by
        rw [List.pairwise_cons]
        exact ⟨fun e he => hx e (List.mem_cons_of_mem y he),
               (List.pairwise_cons.mp hyys).2⟩
      obtain ⟨r, hreq, hrmem, hrmin, hrtie⟩ := ih x hxys
      have hxle : |x - v| ≤ |y - v| := not_lt.mp hc
      refine ⟨r, ?_, ?_, ?_, ?_⟩
      · simpa [minByDist, List.foldl_cons, if_neg hc] using hreq
      · rcases List.mem_cons.mp hrmem with hr | hr
        · exact hr ▸ List.mem_cons_self x (y :: ys)
        · exact List.mem_cons_of_mem x (List.mem_cons_of_mem y hr)
      · intro e he
        rcases List.mem_cons.mp he with he | he
        · exact he ▸ hrmin x (List.mem_cons_self x ys)
        · rcases List.mem_cons.mp he with he | he
          · subst he
            have := hrmin x (List.mem_cons_self x ys)
            linarith
          · exact hrmin e (List.mem_cons_of_mem x he)
      · intro e he heq
        rcases List.mem_cons.mp he with he | he
        · subst he
          exact hrtie e (List.mem_cons_self e ys) heq
        · rcases List.mem_cons.mp he with he | he
          · subst he
            have h1 : |r - v| ≤ |x - v| := hrmin x (List.mem_cons_self x ys)
            have h2 : |x - v| = |r - v| := le_antisymm (heq ▸ hxle) h1
            have h3 : r ≤ x := hrtie x (List.mem_cons_self x ys) h2
            have h4 : x < e := hx e (List.mem_cons_self e ys)
            omega
          · exact hrtie e (List.mem_cons_of_mem x he) heq

/-! ## Claim theorems -/

/-- C2: for a requested frequency strictly between 0 and 1 and a non-empty
table, both controllers resolve the request to the table element at index
`floor(x * (N - 1))`; in particular `[100, 200, 400, 800]` at `x = 1/2`
resolves to `200`. -/
theorem c2_proportional_resolve (freqs : List ℤ) (f : ℚ)
    (hne : freqs ≠ []) (h0 : 0 < f) (h1 : f < 1) :
    (∃ t, freqs[(⌊f * ((freqs.length : ℚ) - 1)⌋).toNat]? = some t ∧
       resolveTargetCPU freqs f = some t ∧ resolveTargetGPU freqs f = some t) ∧
    resolveTargetCPU [100, 200, 400, 800] (mkRat 1 2) = some 200 := by
  have hinst : resolveTargetCPU [100, 200, 400, 800] (mkRat 1 2) = some 200 := by
    with_unfolding_all decide
  have hn : 1 ≤ freqs.length := List.length_pos.mpr hne
  have hidx : propIdx f freqs.length < freqs.length := propIdx_lt h0 h1 hn
  have hfl : propIdx f freqs.length = (⌊f * ((freqs.length : ℚ) - 1)⌋).toNat :=
    propIdx_eq_floor h0.le hn
  have hget : freqs[propIdx f freqs.length]? =
      some (freqs.get ⟨propIdx f freqs.length, hidx⟩) := by
    rw [List.getElem?_eq_getElem hidx]
    rfl
  have hmem : freqs.get ⟨propIdx f freqs.length, hidx⟩ ∈ freqs := List.get_mem ..
  refine ⟨⟨freqs.get ⟨propIdx f freqs.length, hidx⟩, ?_, ?_, ?_⟩, hinst⟩
  · rw [← hfl]; exact hget
  · rw [resolveTargetCPU, if_pos ⟨h0, h1⟩, hget]
    simp [hmem]
  · rw [resolveTargetGPU, if_pos ⟨h0, h1⟩, hget]
    simp [hmem]

/-- C2 witness: the theorem instantiated at the table `[100, 200, 400, 800]`
and request `1/2`. -/
theorem c2_witness :
    (∃ t, [(100 : ℤ), 200, 400, 800][(⌊(mkRat 1 2) * ((([(100 : ℤ), 200, 400, 800].length : ℚ)) - 1)⌋).toNat]? = some t ∧
       resolveTargetCPU [100, 200, 400, 800] (mkRat 1 2) = some t ∧
       resolveTargetGPU [100, 200, 400, 800] (mkRat 1 2) = some t) ∧
    resolveTargetCPU [100, 200, 400, 800] (mkRat 1 2) = some 200 :=
  c2_proportional_resolve [100, 200, 400, 800] (mkRat 1 2)
    (by decide) (by decide) (by decide)

/-- C10: for a proportional request `0 < x < 1` against a table of length
`N ≥ 2`, the computed index `int(x * (N - 1))` is at most `N - 2`, never the
last index, and always in bounds for the table access. -/
theorem c10_prop_index_bounds (f : ℚ) (n : ℕ) (h2 : 2 ≤ n) (h0 : 0 < f) (h1 : f < 1) :
    propIdx f n ≤ n - 2 ∧ propIdx f n ≠ n - 1 ∧
    ∀ freqs : List ℤ, freqs.length = n → (freqs[propIdx f n]?).isSome := by
  have hle : propIdx f n ≤ n - 2 := propIdx_le_sub_two h0 h1 h2
  refine ⟨hle, by omega, ?_⟩
  intro freqs hlen
  have hlt : propIdx f n < freqs.length := by omega
  rw [List.getElem?_eq_getElem hlt]
  rfl

/-- C10 witness: the theorem instantiated at `x = 1/2`, `N = 4`. -/
theorem c10_witness :
    propIdx (mkRat 1 2) 4 ≤ 2 ∧ propIdx (mkRat 1 2) 4 ≠ 3 ∧
    ∀ freqs : List ℤ, freqs.length = 4 → (freqs[propIdx (mkRat 1 2) 4]?).isSome :=
  c10_prop_index_bounds (mkRat 1 2) 4 (by decide) (by decide) (by decide)

/-- C3: for a strictly ascending non-empty table and an absolute target `v`
not in the table, the nearest-snap scan returns a table entry of minimal
absolute distance to `v`, and every equidistant entry is at least the
returned one (so ties go to the lower value); the snap is exactly what
`resolveTargetCPU` computes for the absolute request `v`; in particular the
table `[100, 300]` with `v = 200` yields `100`. -/
theorem c3_nearest_snap (freqs : List ℤ) (v : ℤ)
    (hasc : List.Pairwise (· < ·) freqs) (hne : freqs ≠ []) (hnot : v ∉ freqs) :
    (∃ r, minByDist v freqs = some r ∧ resolveTargetCPU freqs (v : ℚ) = some r ∧
       r ∈ freqs ∧ (∀ e ∈ freqs, |r - v| ≤ |e - v|) ∧
       (∀ e ∈ freqs, |e - v| = |r - v| → r ≤ e)) ∧
    minByDist 200 [100, 300] = some 100 := by
  match freqs, hne with
  | x :: xs, _ =>
    obtain ⟨r, hreq, hrmem, hrmin, hrtie⟩ := minByDist_spec v x xs hasc
    have hcond : ¬(0 < (v : ℚ) ∧ (v : ℚ) < 1) := by
      rintro ⟨a, b⟩
      have a' : 0 < v := by exact_mod_cast a
      have b' : v < 1 := by exact_mod_cast b
      omega
    have hres : resolveTargetCPU (x :: xs) (v : ℚ) = minByDist v (x :: xs) := by
      rw [resolveTargetCPU, if_neg hcond, pyInt_intCast]
      simp only [if_neg hnot]
    exact ⟨⟨r, hreq, hres ▸ hreq, hrmem, hrmin, hrtie⟩, by decide⟩

/-- C3 witness: the theorem instantiated at the table `[100, 300]` and
target `200`. -/
theorem c3_witness :
    (∃ r, minByDist 200 [(100 : ℤ), 300] = some r ∧
       resolveTargetCPU [(100 : ℤ), 300] ((200 : ℤ) : ℚ) = some r ∧
       r ∈ [(100 : ℤ), 300] ∧ (∀ e ∈ [(100 : ℤ), 300], |r - 200| ≤ |e - 200|) ∧
       (∀ e ∈ [(100 : ℤ), 300], |e - 200| = |r - 200| → r ≤ e)) ∧
    minByDist 200 [100, 300] = some 100 :=
  c3_nearest_snap [100, 300] 200 (by decide) (by decide) (by decide)

/-- The governor loop returns `True` exactly when every core's write
succeeds, and its write trace covers the scoped cores up to and including
the first failure, in order. -/
lemma set_governor_go_spec (hw : CPUHw) (g : String) : ∀ l : List Nat,
    ((CPUController.set_governor_go hw g l).1 = l.all (fun c => hw.gov_write_ok c)) ∧
    (CPUController.set_governor_go hw g l).2 =
      (l.takeWhile (fun c => hw.gov_write_ok c) ++
       (l.dropWhile (fun c => hw.gov_write_ok c)).take 1).map
        (fun c => Event.govWrite c g)
  | [] => by simp [CPUController.set_governor_go]
  | c :: rest => by
    have ih := set_governor_go_spec hw g rest
    cases hc : hw.gov_write_ok c with
    | true =>
      simp [CPUController.set_governor_go, hc, List.takeWhile_cons, List.dropWhile_cons,
        ih.1, ih.2]
    | false =>
      simp [CPUController.set_governor_go, hc, List.takeWhile_cons, List.dropWhile_cons]

/-- C8: a CPU governor write over a scope reports success exactly when every
core in scope succeeded, and the cores actually written are the longest
prefix of succeeding cores followed by the first failing core (if any) —
the call stops at the first failure. -/
theorem c8_governor_all_or_nothing (hw : CPUHw) (g : String) (cpu : Option Nat) :
    ((CPUController.set_governor hw g cpu).1 = true ↔
       ∀ c ∈ cpuScope hw cpu, hw.gov_write_ok c = true) ∧
    (CPUController.set_governor hw g cpu).2 =
      ((cpuScope hw cpu).takeWhile (fun c => hw.gov_write_ok c) ++
       ((cpuScope hw cpu).dropWhile (fun c => hw.gov_write_ok c)).take 1).map
        (fun c => Event.govWrite c g) := by
  have h := set_governor_go_spec hw g (cpuScope hw cpu)
  refine ⟨?_, h.2⟩
  rw [CPUController.set_governor, h.1, List.all_eq_true]

/-- The frequency loop writes every core in the list, in order. -/
lemma set_freq_go_events (hw : CPUHw) (t : Int) : ∀ l : List Nat,
    (CPUController.set_freq_go hw t l).2 = l.map (fun c => Event.freqWrite c t)
  | [] => rfl
  | c :: rest => by
    simp [CPUController.set_freq_go, set_freq_go_events hw t rest]

/-- The frequency loop's success count is positive exactly when some core's
write succeeds. -/
lemma set_freq_go_any (hw : CPUHw) (t : Int) : ∀ l : List Nat,
    decide (0 < (CPUController.set_freq_go hw t l).1) =
      l.any (fun c => hw.freq_write_ok c)
  | [] => rfl
  | c :: rest => by
    cases hc : hw.freq_write_ok c with
    | true => simp [CPUController.set_freq_go, hc]
    | false => simp [CPUController.set_freq_go, hc, set_freq_go_any hw t rest]

lemma set_freq_go_pos (hw : CPUHw) (t : Int) (l : List Nat) :
    0 < (CPUController.set_freq_go hw t l).1 ↔
      ∃ c ∈ l, hw.freq_write_ok c = true := by
  have h := set_freq_go_any hw t l
  constructor
  · intro hpos
    have hany : l.any (fun c => hw.freq_write_ok c) = true := by
      rw [← h]
      exact decide_eq_true hpos
    simpa [List.any_eq_true] using hany
  · intro hex
    have hany : l.any (fun c => hw.freq_write_ok c) = true := by
      simpa [List.any_eq_true] using hex
    rw [← h] at hany
    exact of_decide_eq_true hany

/-- The GPU write loop over the three candidate paths succeeds exactly when
some existing path accepts the write. -/
lemma gpuWriteLoop_fst (hw : GPUHw) (t : Int) :
    (gpuWriteLoop t (gpuWritePaths hw)).1 =
      (hw.us_freq_exists && hw.us_freq_ok || (hw.min_freq_exists && hw.min_freq_ok) ||
       (hw.max_freq_exists && hw.max_freq_ok)) := by
  rcases hw with ⟨p, af, cf, cg, gok, e0, o0, e1, o1, e2, o2⟩
  cases e0 <;> cases e1 <;> cases e2 <;> simp [gpuWritePaths, gpuWriteLoop, Bool.or_assoc]

/-- C4: whenever a CPU frequency application returns (no exception), every
core in scope received a write attempt for the resolved target — a failure
on one core does not prevent the others — and the reported result is success
exactly when at least one core's write succeeded. -/
theorem c4_independent_core_writes (hw : CPUHw) (f : ℚ) (cpu : Option Nat)
    (b : Bool) (evs : List Event)
    (h : CPUController.set_frequency hw f cpu = some (b, evs)) :
    ∃ t : ℤ, (∀ c ∈ cpuScope hw cpu, Event.freqWrite c t ∈ evs) ∧
      (b = true ↔ ∃ c ∈ cpuScope hw cpu, hw.freq_write_ok c = true) := by
  rcases hsc : cpuScope hw cpu with _ | ⟨c0, rest⟩
  · simp [CPUController.set_frequency, hsc] at h
  · simp only [CPUController.set_frequency, hsc] at h
    rcases hres : resolveTargetCPU (CPUController.get_available_frequencies hw c0) f
      with _ | t
    · rw [hres] at h
      simp at h
    · rw [hres] at h
      simp only [Option.some.injEq, Prod.mk.injEq] at h
      obtain ⟨hb, hevs⟩ := h
      refine ⟨t, ?_, ?_⟩
      · intro c hc
        rw [← hevs]
        refine List.mem_append_right _ ?_
        rw [set_freq_go_events]
        exact List.mem_map_of_mem _ hc
      · constructor
        · intro hb'
          rw [hb'] at hb
          exact (set_freq_go_pos hw t (c0 :: rest)).mp (of_decide_eq_true hb)
        · intro hex
          rw [← hb]
          exact decide_eq_true ((set_freq_go_pos hw t (c0 :: rest)).mpr hex)

/-- C4 witness: the theorem applied to `cpuHwB`, where the call reports
success although core 0's write failed. -/
theorem c4_witness :
    ∃ t : ℤ, (∀ c ∈ cpuScope cpuHwB none,
        Event.freqWrite c t ∈ [Event.freqWrite 0 100, Event.freqWrite 1 100]) ∧
      (true = true ↔ ∃ c ∈ cpuScope cpuHwB none, cpuHwB.freq_write_ok c = true) :=
  c4_independent_core_writes cpuHwB 100 none true
    [Event.freqWrite 0 100, Event.freqWrite 1 100] (by decide)

/-- C1 counterexample: on `cpuHwA` the governor is not `"userspace"` and the
switch to `"userspace"` fails, yet `set_frequency` still writes the
frequency to both cores and reports success — contradicting "if the switch
fails, no frequency write is attempted and the call reports failure". -/
theorem c1_counterexample :
    CPUController.get_current_governor cpuHwA 0 ≠ some "userspace" ∧
    (CPUController.set_governor cpuHwA "userspace" none).1 = false ∧
    CPUController.set_frequency cpuHwA 100 none =
      some (true, [Event.govWrite 0 "userspace",
                   Event.freqWrite 0 100, Event.freqWrite 1 100]) :=
  ⟨by decide, by decide, by decide⟩

/-- C1 (amended): when the current governor differs from `"userspace"`, both
controllers first issue the governor switch and then proceed to the
frequency write regardless of the switch's outcome; the reported result
depends only on the frequency writes (CPU: some core in scope succeeded;
GPU: some existing candidate path accepted the write). -/
theorem c1_amended_governor_switch :
    (∀ (hw : CPUHw) (f : ℚ) (cpu : Option Nat) (b : Bool) (evs : List Event)
       (c0 : Nat) (rest : List Nat),
       cpuScope hw cpu = c0 :: rest →
       CPUController.get_current_governor hw c0 ≠ some "userspace" →
       CPUController.set_frequency hw f cpu = some (b, evs) →
       ∃ t, resolveTargetCPU (CPUController.get_available_frequencies hw c0) f = some t ∧
         evs = (CPUController.set_governor hw "userspace" cpu).2 ++
               (cpuScope hw cpu).map (fun c => Event.freqWrite c t) ∧
         b = (cpuScope hw cpu).any (fun c => hw.freq_write_ok c)) ∧
    (∀ (hw : GPUHw) (f : ℚ) (b : Bool) (evs : List GPUEvent) (p : String),
       hw.gpu_path = some p →
       GPUController.get_current_governor hw ≠ some "userspace" →
       GPUController.set_frequency hw f = some (b, evs) →
       ∃ t, resolveTargetGPU (GPUController.get_available_frequencies hw) f = some t ∧
         evs = GPUEvent.govWrite "userspace" :: (gpuWriteLoop t (gpuWritePaths hw)).2 ∧
         b = (hw.us_freq_exists && hw.us_freq_ok || (hw.min_freq_exists && hw.min_freq_ok) ||
              (hw.max_freq_exists && hw.max_freq_ok))) := by
  constructor
  · intro hw f cpu b evs c0 rest hsc hgov h
    simp only [CPUController.set_frequency, hsc] at h
    rw [if_pos hgov] at h
    rcases hres : resolveTargetCPU (CPUController.get_available_frequencies hw c0) f
      with _ | t
    · rw [hres] at h
      simp at h
    · rw [hres] at h
      simp only [Option.some.injEq, Prod.mk.injEq] at h
      obtain ⟨hb, hevs⟩ := h
      refine ⟨t, rfl, ?_, ?_⟩
      · rw [← hevs, hsc, set_freq_go_events]
      · rw [← hb, hsc]
        exact set_freq_go_any hw t (c0 :: rest)
  · intro hw f b evs p hp hgov h
    simp only [GPUController.set_frequency, hp] at h
    rw [if_pos hgov] at h
    rcases hres : resolveTargetGPU (GPUController.get_available_frequencies hw) f
      with _ | t
    · rw [hres] at h
      simp at h
    · rw [hres] at h
      simp only [Option.some.injEq, Prod.mk.injEq] at h
      obtain ⟨hb, hevs⟩ := h
      refine ⟨t, rfl, ?_, ?_⟩
      · rw [← hevs]
        simp [GPUController.set_governor, hp]
      · rw [← hb]
        exact gpuWriteLoop_fst hw t

/-- C1 witness: the amended theorem applied to `cpuHwA`, where the switch
fails and the call still succeeds via the frequency writes. -/
theorem c1_witness :
    ∃ t, resolveTargetCPU (CPUController.get_available_frequencies cpuHwA 0) 100 = some t ∧
      [Event.govWrite 0 "userspace", Event.freqWrite 0 100, Event.freqWrite 1 100] =
        (CPUController.set_governor cpuHwA "userspace" none).2 ++
        (cpuScope cpuHwA none).map (fun c => Event.freqWrite c t) ∧
      true = (cpuScope cpuHwA none).any (fun c => cpuHwA.freq_write_ok c) :=
  c1_amended_governor_switch.1 cpuHwA 100 none true
    [Event.govWrite 0 "userspace", Event.freqWrite 0 100, Event.freqWrite 1 100]
    0 [1] (by decide) (by decide) (by decide)

/-- C5 counterexample: discovery does not enforce the invariant for every
file content — a CPU frequency file holding `200 100` is returned unsorted,
and a GPU file holding `100 100` keeps its duplicate, so neither list is
strictly ascending. -/
theorem c5_counterexample :
    CPUController.get_available_frequencies cpuHwC5 0 = [200, 100] ∧
    ¬ List.Pairwise (· < ·) (CPUController.get_available_frequencies cpuHwC5 0) ∧
    GPUController.get_available_frequencies gpuHwDup = [100, 100] ∧
    ¬ List.Pairwise (· < ·) (GPUController.get_available_frequencies gpuHwDup) :=
  ⟨by decide, by decide, by decide, by decide⟩

/-- C5 (amended): CPU discovery returns the file's parsed contents unchanged,
so the strictly-ascending/no-duplicate invariant holds only when the file
itself satisfies it; GPU discovery always yields a non-decreasing (sorted,
but possibly duplicated) list; the hard-coded GPU fallback table is strictly
ascending and duplicate-free. -/
theorem c5_amended_discovery :
    (∀ (hw : CPUHw) (c : Nat) (l : List Int), hw.avail_freq_file c = some l →
       CPUController.get_available_frequencies hw c = l) ∧
    (∀ hw : GPUHw, List.Sorted (· ≤ ·) (GPUController.get_available_frequencies hw)) ∧
    List.Pairwise (· < ·) gpuFallbackFreqs := by
  refine ⟨?_, ?_, by decide⟩
  · intro hw c l h
    rw [CPUController.get_available_frequencies, h]
    rfl
  · intro hw
    unfold GPUController.get_available_frequencies
    split
    · exact List.sorted_nil
    · split
      · exact List.sorted_insertionSort _ _
      · decide

/-- C5 witness: the amended theorem applied to the concrete states
`cpuHwC5` and `gpuHwDup`. -/
theorem c5_witness :
    CPUController.get_available_frequencies cpuHwC5 0 = [200, 100] ∧
    List.Sorted (· ≤ ·) (GPUController.get_available_frequencies gpuHwDup) :=
  ⟨c5_amended_discovery.1 cpuHwC5 0 [200, 100] rfl,
   c5_amended_discovery.2.1 gpuHwDup⟩

/-- C6 counterexample: with no GPU control path bound, a `get_status` command
for the GPU does not fail — the dispatcher returns a response with status
`"success"` carrying a degraded snapshot, contradicting "every GPU operation
fails with a domain-unavailable condition". -/
theorem c6_counterexample :
    gpuHwNone.gpu_path = none ∧
    (dispatch cpuHwB gpuHwNone ⟨some "get_status", some "gpu", none, none, none⟩
        "t0").1.status = "success" ∧
    (dispatch cpuHwB gpuHwNone ⟨some "get_status", some "gpu", none, none, none⟩
        "t0").1.gpu_status = some ⟨none, none, [], none⟩ :=
  ⟨rfl, by decide, by decide⟩

/-- C6 (amended): when no GPU control path is bound, `set_frequency` and
`set_governor` report failure without issuing any hardware write, and
`get_status` succeeds with a snapshot whose fields are all null/empty —
no operation performs hardware I/O or raises an unhandled fault. -/
theorem c6_amended_unavailable (hw : GPUHw) (h : hw.gpu_path = none) :
    (∀ f : ℚ, GPUController.set_frequency hw f = some (false, [])) ∧
    (∀ g : String, GPUController.set_governor hw g = (false, [])) ∧
    GPUController.get_status hw = ⟨none, none, [], none⟩ := by
  refine ⟨fun f => ?_, fun g => ?_, ?_⟩
  · simp [GPUController.set_frequency, h]
  · simp [GPUController.set_governor, h]
  · simp [GPUController.get_status, GPUController.get_current_frequency,
      GPUController.get_current_governor, GPUController.get_available_frequencies, h]

/-- C6 witness: the amended theorem applied to `gpuHwNone`, with concrete
request values. -/
theorem c6_witness :
    GPUController.set_frequency gpuHwNone (mkRat 1 2) = some (false, []) ∧
    GPUController.set_governor gpuHwNone "performance" = (false, []) ∧
    GPUController.get_status gpuHwNone = ⟨none, none, [], none⟩ :=
  ⟨(c6_amended_unavailable gpuHwNone rfl).1 (mkRat 1 2),
   (c6_amended_unavailable gpuHwNone rfl).2.1 "performance",
   (c6_amended_unavailable gpuHwNone rfl).2.2⟩

/-- C7 counterexample: the response to an unknown action is rebuilt without
the timestamp captured at dispatch time, contradicting "every response
carries a timestamp". -/
theorem c7_counterexample :
    (dispatch cpuHwB gpuHwNone ⟨some "shutdown", none, none, none, none⟩
        "2024-01-01T00:00:00").1.status = "error" ∧
    (dispatch cpuHwB gpuHwNone ⟨some "shutdown", none, none, none, none⟩
        "2024-01-01T00:00:00").1.timestamp = none :=
  ⟨by decide, by decide⟩

/-- C7 (amended): a dispatched command's response carries the dispatch-time
timestamp exactly when its status is `"success"`; every error response
(missing parameter, unknown action, apply failure, caught exception) is
rebuilt without it. -/
theorem c7_amended_timestamp (cpuHw : CPUHw) (gpuHw : GPUHw) (cmd : Command)
    (ts : String) :
    (dispatch cpuHw gpuHw cmd ts).1.timestamp =
      (if (dispatch cpuHw gpuHw cmd ts).1.status = "success" then some ts
       else none) := by
  unfold dispatch
  dsimp only
  repeat' split
  all_goals simp_all [errorResponse, baseResponse]

/-- C9: routing of dispatched commands — a command with no `target` field is
handled entirely by the CPU controller, and a `set_frequency`/`set_governor`
command whose target is any string other than `"cpu"` (such as `"all"` or
`"gpu"`) is handled by the GPU controller alone, which does receive the
corresponding operation. -/
theorem c9_target_routing (cpuHw : CPUHw) (gpuHw : GPUHw) (cmd : Command)
    (ts : String) :
    (cmd.target = none →
       ∀ c ∈ (dispatch cpuHw gpuHw cmd ts).2, c.dom = Dom.cpu) ∧
    (∀ t, cmd.target = some t → t ≠ "cpu" →
       (∀ f, cmd.action = some "set_frequency" → cmd.frequency = some f →
          (∀ c ∈ (dispatch cpuHw gpuHw cmd ts).2, c.dom = Dom.gpu) ∧
            Call.setFreq Dom.gpu ∈ (dispatch cpuHw gpuHw cmd ts).2) ∧
       (cmd.action = some "set_governor" →
          (∀ c ∈ (dispatch cpuHw gpuHw cmd ts).2, c.dom = Dom.gpu) ∧
            Call.setGov Dom.gpu ∈ (dispatch cpuHw gpuHw cmd ts).2)) := by
  constructor
  · intro htgt
    unfold dispatch
    rw [htgt]
    dsimp only [Option.getD_none]
    repeat' split
    all_goals simp_all [Call.dom]
  · intro t htgt hne
    constructor
    · intro f hact hfreq
      unfold dispatch
      rw [htgt, hact, hfreq]
      dsimp only [Option.getD_some]
      rw [if_pos rfl, if_neg hne]
      split <;> simp [Call.dom]
    · intro hact
      unfold dispatch
      rw [htgt, hact]
      dsimp only [Option.getD_some]
      rw [if_neg (by decide : ¬("set_governor" : String) = "set_frequency"),
        if_neg (by decide : ¬("set_governor" : String) = "get_status"),
        if_pos rfl, if_neg hne]
      split <;> simp [Call.dom]

/-- C9 witness: the theorem applied to a concrete `set_governor` command with
target `"all"`, which is routed to the GPU controller alone. -/
theorem c9_witness :
    (∀ c ∈ (dispatch cpuHwB gpuHwNone
        ⟨some "set_governor", some "all", none, none, none⟩ "t0").2,
      c.dom = Dom.gpu) ∧
    Call.setGov Dom.gpu ∈ (dispatch cpuHwB gpuHwNone
        ⟨some "set_governor", some "all", none, none, none⟩ "t0").2 :=
  ((c9_target_routing cpuHwB gpuHwNone
      ⟨some "set_governor", some "all", none, none, none⟩ "t0").2
    "all" rfl (by decide)).2 rfl

end DVFS
